import Mathlib

/-!
# Conversation payload construction of intercom-go

A shallow embedding of `conversation.go` and of `Contact.MessageAddress` from
`contact.go`.

Conventions of the embedding:

* a Go `string` is a `String`, an `int64` an `Int`, a pointer field `*T` an
  `Option T` (`none` is the nil pointer), a slice `[]T` an `Option (List T)`
  (`none` is the nil slice);
* a struct literal that leaves a field out gives that field its zero value, so
  every field of a record below has the zero value as its default;
* the field called `Type` in the source is `Type_` here;
* a repository method is a function on an explicit repository state `σ`: it
  takes the state before the call and returns the Go result pair
  `(value, error)` together with the state after the call;
* each method of the service is first embedded on the values its pointer and
  interface arguments point at; the forms named with `Ptr` then take the
  arguments themselves, a `*Admin`, `*User` or `MessagePerson` being an
  `Option` (`none` is nil), and a method call returns what the body returned
  or nothing when it panicked, together with the state of the repository.
-/

namespace Intercom

/-! ## Data model -/

/-- Modelled from the spec: the struct `MessageAddress`, declared outside the
files at hand: "{kind, id: string, userID: optional string, email: optional
string}". These are the four string fields that `conversation.go` reads and
`contact.go` writes. -/
structure MessageAddress where
  Type_ : String := ""
  ID : String := ""
  Email : String := ""
  UserID : String := ""
deriving DecidableEq

/-- The interface `MessagePerson`: anything with a `MessageAddress()` method. -/
class MessagePerson (α : Type) where
  MessageAddress : α → MessageAddress

/-- Modelled from the spec: the struct `Reply`, declared outside the files at
hand: "{kind, replyTypeTag, body, attachmentURLs, adminID, assigneeID,
intercomID/userID/email}". These are the fields that `reply` and `Assign` fill
in. -/
structure Reply where
  Type_ : String := ""
  ReplyType : String := ""
  Body : String := ""
  AssigneeID : String := ""
  AdminID : String := ""
  IntercomID : String := ""
  Email : String := ""
  UserID : String := ""
  AttachmentURLs : Option (List String) := none
deriving DecidableEq

/-- Modelled from the spec: the reply kinds; the type `ReplyType` and its
constants are declared outside the files at hand. `conversation.go` names
`CONVERSATION_ASSIGN`, `CONVERSATION_OPEN` and `CONVERSATION_CLOSE`; the spec
lists comment, note, open, close and assign. -/
inductive ReplyType where
  | CONVERSATION_COMMENT
  | CONVERSATION_NOTE
  | CONVERSATION_ASSIGN
  | CONVERSATION_OPEN
  | CONVERSATION_CLOSE
deriving DecidableEq

export ReplyType (CONVERSATION_COMMENT CONVERSATION_NOTE CONVERSATION_ASSIGN
  CONVERSATION_OPEN CONVERSATION_CLOSE)

/-- Modelled from the spec: the method `ReplyType.String`, which is declared
outside the files at hand: "the string form of replyKind (values include:
comment, note, open, close, assign)". -/
def ReplyType.String : ReplyType → String
  | .CONVERSATION_COMMENT => "comment"
  | .CONVERSATION_NOTE => "note"
  | .CONVERSATION_ASSIGN => "assign"
  | .CONVERSATION_OPEN => "open"
  | .CONVERSATION_CLOSE => "close"

/-- Modelled from the spec: the type of `Admin.ID`, declared outside the files
at hand ("admin's identifier"). The code only ever calls its `String()`
method, so a value of the type is given by what that method returns. -/
structure AdminIdentifier where
  String : String
deriving DecidableEq

/-- Modelled from the spec: the struct `Admin`, declared outside the files at
hand; `conversation.go` reads `admin.ID.String()`. -/
structure Admin where
  ID : AdminIdentifier
deriving DecidableEq

/-- Modelled from the spec: the method `Admin.MessageAddress`, declared outside
the files at hand: "Admin → kind="admin", id = admin's identifier". -/
def Admin.MessageAddress (a : Admin) : MessageAddress :=
  { Type_ := "admin", ID := a.ID.String }

instance : MessagePerson Admin where
  MessageAddress := Admin.MessageAddress

/-- Modelled from the spec: the struct `User`, declared outside the files at
hand ("user's identifier", "user's external user id", "user's email");
`ListByUser` reads its string fields `ID`, `UserID` and `Email`. -/
structure User where
  ID : String := ""
  UserID : String := ""
  Email : String := ""
deriving DecidableEq

/-- Modelled from the spec: the method `User.MessageAddress`, declared outside
the files at hand: "User → kind="user", id = user's identifier, userID =
user's external user id, email = user's email". -/
def User.MessageAddress (u : User) : MessageAddress :=
  { Type_ := "user", ID := u.ID, UserID := u.UserID, Email := u.Email }

instance : MessagePerson User where
  MessageAddress := User.MessageAddress

/-- The struct `ContactLocation` of `contact.go`. -/
structure ContactLocation where
  Type_ : String := ""
  Country : String := ""
  Region : String := ""
  City : String := ""
deriving DecidableEq

/-- The struct `Addressable` of `contact.go`. -/
structure Addressable where
  Type_ : String := ""
  ID : String := ""
  URL : String := ""
deriving DecidableEq

/-- The struct `AddressableList` of `contact.go`. -/
structure AddressableList where
  Type_ : String := ""
  Data : Option (List Addressable) := none
  URL : String := ""
  TotalCount : Int := 0
  HasMore : Option Bool := none
deriving DecidableEq

/-- The struct `Contact` of `contact.go`, field by field. `S` is the struct
`SocialProfileList`, declared outside the files at hand, and `M` the type of a
non-nil `map[string]interface{}`. -/
structure Contact (S M : Type) where
  Type_ : String := ""
  ID : String := ""
  WorkspaceID : String := ""
  ExternalID : String := ""
  role : String := ""
  Email : String := ""
  Phone : String := ""
  Name : String := ""
  Avatar : String := ""
  OwnerID : Int := 0
  SocialProfiles : Option S := none
  HasHardBounced : Option Bool := none
  MarkedEmailAsSpam : Option Bool := none
  UnsubscribedFromEmails : Option Bool := none
  CreatedAt : Int := 0
  UpdatedAt : Int := 0
  SignedUpAt : Int := 0
  LastSeenAt : Int := 0
  LastRepliedAt : Int := 0
  LastContactedAt : Int := 0
  LastEmailOpenedAt : Int := 0
  LastEmailClickedAt : Int := 0
  LanguageOverride : String := ""
  Browser : String := ""
  BrowserVersion : String := ""
  BrowserLanguage : String := ""
  OS : String := ""
  Location : Option ContactLocation := none
  AndroidAppName : String := ""
  AndroidAppVersion : String := ""
  AndroidDevice : String := ""
  AndroidOSVersion : String := ""
  AndroidSDKVersion : String := ""
  AndroidLastSeenAt : Int := 0
  IOSAppName : String := ""
  IOSAppVersion : String := ""
  IOSDevice : String := ""
  IOSOSVersion : String := ""
  IOSSDKVersion : String := ""
  IOSLastSeenAt : Int := 0
  CustomAttributes : Option M := none
  Tags : Option AddressableList := none
  Notes : Option AddressableList := none
  Companies : Option AddressableList := none

/-- The method `Contact.MessageAddress` of `contact.go`. It has a value
receiver and no assignment, so it is a function of the contact. -/
def Contact.MessageAddress {S M : Type} (c : Contact S M) : MessageAddress :=
  { Type_ := "contact", ID := c.ID, Email := c.Email }

instance {S M : Type} : MessagePerson (Contact S M) where
  MessageAddress := Contact.MessageAddress

/-- The state of conversations to query: `type ConversationListState int`. -/
abbrev ConversationListState := Int

/-- The constant `SHOW_ALL` (iota 0). -/
def SHOW_ALL : ConversationListState := 0
/-- The constant `SHOW_OPEN` (iota 1). -/
def SHOW_OPEN : ConversationListState := 1
/-- The constant `SHOW_CLOSED` (iota 2). -/
def SHOW_CLOSED : ConversationListState := 2
/-- The constant `SHOW_UNREAD` (iota 3). -/
def SHOW_UNREAD : ConversationListState := 3

/-- The struct `ConversationListParams`. The embedded `PageParams` struct is
declared outside the files at hand and is the type parameter `P`. -/
structure ConversationListParams (P : Type) where
  PageParams : P
  Type_ : String := ""
  AdminID : String := ""
  IntercomUserID : String := ""
  UserID : String := ""
  Email : String := ""
  Open : Option Bool := none
  Unread : Option Bool := none
  DisplayAs : String := ""
deriving DecidableEq

/-- Modelled from the spec: the helper `Bool` of the package, declared outside
the files at hand: a pointer to a boolean holding `b`, which makes the
"boolean-or-absent" field present with that value. -/
def boolPtr (b : Bool) : Option Bool := some b

/-- The interface `ConversationRepository`, as the four methods the service
calls. `σ` is the state of the repository, `P` the page parameters, `C` a
conversation, `L` a conversation list and `E` a non-nil error. -/
structure ConversationRepository (σ P C L E : Type) where
  find : String → σ → (C × Option E) × σ
  list : ConversationListParams P → σ → (L × Option E) × σ
  read : String → σ → (C × Option E) × σ
  reply : String → Reply → σ → (C × Option E) × σ

/-- The struct `ConversationService`. -/
structure ConversationService (σ P C L E : Type) where
  Repository : ConversationRepository σ P C L E

/-! ## Operations of `ConversationService` -/

section Service

variable {σ P C L E : Type}

/-- The method `ListAll` (`conversation.go`, lines 175-177). -/
def ConversationService.ListAll (c : ConversationService σ P C L E) (pageParams : P) :
    σ → (L × Option E) × σ :=
  c.Repository.list { PageParams := pageParams }

/-- The method `ListByAdmin` (`conversation.go`, lines 180-193). The two `if`
statements run one after the other, each overwriting `params.Open`. -/
def ConversationService.ListByAdmin (c : ConversationService σ P C L E) (admin : Admin)
    (state : ConversationListState) (pageParams : P) : σ → (L × Option E) × σ :=
  let params : ConversationListParams P :=
    { PageParams := pageParams, Type_ := "admin", AdminID := admin.ID.String }
  let params := if state = SHOW_OPEN then { params with Open := boolPtr true } else params
  let params := if state = SHOW_CLOSED then { params with Open := boolPtr false } else params
  c.Repository.list params

/-- The method `ListByUser` (`conversation.go`, lines 196-208). -/
def ConversationService.ListByUser (c : ConversationService σ P C L E) (user : User)
    (state : ConversationListState) (pageParams : P) : σ → (L × Option E) × σ :=
  let params : ConversationListParams P :=
    { PageParams := pageParams, Type_ := "user", IntercomUserID := user.ID,
      UserID := user.UserID, Email := user.Email }
  let params := if state = SHOW_UNREAD then { params with Unread := boolPtr true } else params
  c.Repository.list params

/-- The method `Find` (`conversation.go`, lines 211-213). -/
def ConversationService.Find (c : ConversationService σ P C L E) (id : String) :
    σ → (C × Option E) × σ :=
  c.Repository.find id

/-- The method `MarkRead` (`conversation.go`, lines 216-218). -/
def ConversationService.MarkRead (c : ConversationService σ P C L E) (id : String) :
    σ → (C × Option E) × σ :=
  c.Repository.read id

/-- The unexported method `reply` (`conversation.go`, lines 229-245). -/
def ConversationService.reply {α : Type} [MessagePerson α] (c : ConversationService σ P C L E)
    (id : String) (author : α) (replyType : ReplyType) (body : String)
    (attachmentURLs : Option (List String)) : σ → (C × Option E) × σ :=
  let addr := MessagePerson.MessageAddress author
  let reply : Intercom.Reply :=
    { Type_ := addr.Type_, ReplyType := replyType.String, Body := body,
      AttachmentURLs := attachmentURLs }
  let reply :=
    if addr.Type_ = "admin" then
      { reply with AdminID := addr.ID }
    else
      { reply with IntercomID := addr.ID, UserID := addr.UserID, Email := addr.Email }
  c.Repository.reply id reply

/-- The method `Reply` (`conversation.go`, lines 220-222). -/
def ConversationService.Reply {α : Type} [MessagePerson α] (c : ConversationService σ P C L E)
    (id : String) (author : α) (replyType : ReplyType) (body : String) :
    σ → (C × Option E) × σ :=
  c.reply id author replyType body none

/-- The method `ReplyWithAttachmentURLs` (`conversation.go`, lines 225-227). -/
def ConversationService.ReplyWithAttachmentURLs {α : Type} [MessagePerson α]
    (c : ConversationService σ P C L E) (id : String) (author : α) (replyType : ReplyType)
    (body : String) (attachmentURLs : Option (List String)) : σ → (C × Option E) × σ :=
  c.reply id author replyType body attachmentURLs

/-- The method `Assign` (`conversation.go`, lines 248-258). -/
def ConversationService.Assign (c : ConversationService σ P C L E) (id : String)
    (assigner assignee : Admin) : σ → (C × Option E) × σ :=
  let assignerAddr := assigner.MessageAddress
  let assigneeAddr := assignee.MessageAddress
  let reply : Intercom.Reply :=
    { Type_ := "admin", ReplyType := CONVERSATION_ASSIGN.String,
      AdminID := assignerAddr.ID, AssigneeID := assigneeAddr.ID }
  c.Repository.reply id reply

/-- The method `Open` (`conversation.go`, lines 261-263). -/
def ConversationService.Open (c : ConversationService σ P C L E) (id : String)
    (opener : Admin) : σ → (C × Option E) × σ :=
  c.reply id opener CONVERSATION_OPEN "" none

/-- The method `Close` (`conversation.go`, lines 266-268). -/
def ConversationService.Close (c : ConversationService σ P C L E) (id : String)
    (closer : Admin) : σ → (C × Option E) × σ :=
  c.reply id closer CONVERSATION_CLOSE "" none

end Service

/-! ## Observing what a repository is handed -/

/-- The operation `run` of the service makes the one call
`Repository.reply(id, &p)` and returns what that call returns, whatever the
repository and its state are. -/
def HandsToReply
    (run : (σ P C L E : Type) → ConversationService σ P C L E → σ → (C × Option E) × σ)
    (id : String) (p : Reply) : Prop :=
  ∀ (σ P C L E : Type) (c : ConversationService σ P C L E), run σ P C L E c = c.Repository.reply id p

/-- The operation `run` of the service makes the one call
`Repository.list(params)` and returns what that call returns, whatever the
repository and its state are. -/
def HandsToList {P : Type}
    (run : (σ C L E : Type) → ConversationService σ P C L E → σ → (L × Option E) × σ)
    (params : ConversationListParams P) : Prop :=
  ∀ (σ C L E : Type) (c : ConversationService σ P C L E), run σ C L E c = c.Repository.list params

/-- A call received by a repository. -/
inductive Request (P : Type) where
  | find (id : String)
  | list (params : ConversationListParams P)
  | read (id : String)
  | reply (id : String) (reply : Reply)

/-- A test double for the repository: its state is the list of the calls it
has received, oldest first, and every call returns the zero value and a nil
error. -/
def recordingRepository (P : Type) : ConversationRepository (List (Request P)) P Unit Unit Unit where
  find id log := (((), none), log ++ [Request.find id])
  list params log := (((), none), log ++ [Request.list params])
  read id log := (((), none), log ++ [Request.read id])
  reply id r log := (((), none), log ++ [Request.reply id r])

/-- The service over the recording repository. -/
def recordingService (P : Type) : ConversationService (List (Request P)) P Unit Unit Unit :=
  { Repository := recordingRepository P }

/-! ## Values used in the scenarios -/

/-- An admin with id 7. -/
def adminX : Admin := { ID := { String := "7" } }

/-- An admin with id 9. -/
def adminY : Admin := { ID := { String := "9" } }

/-- A user with all three identity fields set. -/
def userX : User := { ID := "u1", UserID := "ext-1", Email := "u@example.com" }

/-- A contact with an id, an email and an external id. -/
def contactX : Contact Unit Unit :=
  { ID := "c1", Email := "c@example.com", ExternalID := "ext-c1" }

/-- The zero value of `Contact`: every field empty. -/
def emptyContact : Contact Unit Unit := {}

/-- A payload populates the admin identity: `AdminID` is not empty. -/
def Reply.adminPopulated (r : Reply) : Prop := r.AdminID ≠ ""

/-- A payload populates the user identity: one of `IntercomID`, `UserID` and
`Email` is not empty. -/
def Reply.userPopulated (r : Reply) : Prop := r.IntercomID ≠ "" ∨ r.UserID ≠ "" ∨ r.Email ≠ ""

instance (r : Reply) : Decidable r.adminPopulated := by
  unfold Reply.adminPopulated; infer_instance

instance (r : Reply) : Decidable r.userPopulated := by
  unfold Reply.userPopulated; infer_instance

/-! ## Delegation to the repository -/

/-- The operation `op` returns exactly what the repository call `call`
returns, from every state of the repository: the same value, the same error
and the state after that call. So `op` fails with an error exactly when the
call fails with that error, and returns a nil error when the call does. -/
def Delegates {σ R E : Type} (op call : σ → (R × Option E) × σ) : Prop :=
  ∀ s, op s = call s ∧ (∀ e, (op s).1.2 = some e ↔ (call s).1.2 = some e) ∧
    ((call s).1.2 = none → (op s).1.2 = none)

/-- A repository given by arbitrary functions returning a result or an error:
`conv` answers `find`, `read` and `reply`, `convs` answers `list`, each from
the call and the calls received before it. The state of the repository is the
list of the calls it has received, oldest first. -/
def answeringRepository {P C L E : Type} (conv : Request P → List (Request P) → C × Option E)
    (convs : Request P → List (Request P) → L × Option E) :
    ConversationRepository (List (Request P)) P C L E where
  find id log := (conv (Request.find id) log, log ++ [Request.find id])
  list params log := (convs (Request.list params) log, log ++ [Request.list params])
  read id log := (conv (Request.read id) log, log ++ [Request.read id])
  reply id r log := (conv (Request.reply id r) log, log ++ [Request.reply id r])

/-- The service over an answering repository. -/
def answeringService {P C L E : Type} (conv : Request P → List (Request P) → C × Option E)
    (convs : Request P → List (Request P) → L × Option E) :
    ConversationService (List (Request P)) P C L E :=
  { Repository := answeringRepository conv convs }

/-- An implementation of `MessagePerson` that returns the address it holds. -/
structure AddressHolder where
  addr : MessageAddress

instance : MessagePerson AddressHolder where
  MessageAddress := AddressHolder.addr

/-- An actor whose address is entirely empty. -/
def anonymous : AddressHolder := { addr := {} }

/-- A remote end that rejects every call with the error "rejected". -/
def rejecting : Request Unit → List (Request Unit) → Unit × Option String :=
  fun _ _ => ((), some "rejected")

/-- A remote end that accepts every call. -/
def accepting : Request Unit → List (Request Unit) → Unit × Option String :=
  fun _ _ => ((), none)

/-! ## Nil actors

The methods take their actors as `*Admin`, `*User` or the interface
`MessagePerson`, all of which can be nil. Each method reads its actor
(`admin.ID`, `user.ID`, `author.MessageAddress()`, `assigner.MessageAddress()`,
`assignee.MessageAddress()`) before it calls the repository, so on a nil actor
it panics there. The outcome of a call is the pair of what was returned, `none`
after a panic, and the state of the repository. -/

/-- The outcome of a call whose body returned `r`. -/
def returned {σ R E : Type} (r : (R × Option E) × σ) : Option (R × Option E) × σ :=
  (some r.1, r.2)

/-- The outcome of a call that panicked with the repository in state `s`. -/
def panicked {σ R E : Type} (s : σ) : Option (R × Option E) × σ :=
  (none, s)

section ServiceOnPointers

variable {σ P C L E : Type}

/-- The method `ListByAdmin` on its `*Admin` argument: `admin.ID` (line 184)
dereferences it. -/
def ConversationService.ListByAdminPtr (c : ConversationService σ P C L E) (admin : Option Admin)
    (state : ConversationListState) (pageParams : P) : σ → Option (L × Option E) × σ :=
  fun s =>
    match admin with
    | none => panicked s
    | some a => returned (c.ListByAdmin a state pageParams s)

/-- The method `ListByUser` on its `*User` argument: `user.ID` (line 200)
dereferences it. -/
def ConversationService.ListByUserPtr (c : ConversationService σ P C L E) (user : Option User)
    (state : ConversationListState) (pageParams : P) : σ → Option (L × Option E) × σ :=
  fun s =>
    match user with
    | none => panicked s
    | some u => returned (c.ListByUser u state pageParams s)

/-- The unexported method `reply` on its `MessagePerson` argument:
`author.MessageAddress()` (line 230) is a method call on it. -/
def ConversationService.replyPtr {α : Type} [MessagePerson α] (c : ConversationService σ P C L E)
    (id : String) (author : Option α) (replyType : ReplyType) (body : String)
    (attachmentURLs : Option (List String)) : σ → Option (C × Option E) × σ :=
  fun s =>
    match author with
    | none => panicked s
    | some a => returned (c.reply id a replyType body attachmentURLs s)

/-- The method `Reply` on its `MessagePerson` argument. -/
def ConversationService.ReplyPtr {α : Type} [MessagePerson α] (c : ConversationService σ P C L E)
    (id : String) (author : Option α) (replyType : ReplyType) (body : String) :
    σ → Option (C × Option E) × σ :=
  c.replyPtr id author replyType body none

/-- The method `ReplyWithAttachmentURLs` on its `MessagePerson` argument. -/
def ConversationService.ReplyWithAttachmentURLsPtr {α : Type} [MessagePerson α]
    (c : ConversationService σ P C L E) (id : String) (author : Option α) (replyType : ReplyType)
    (body : String) (attachmentURLs : Option (List String)) : σ → Option (C × Option E) × σ :=
  c.replyPtr id author replyType body attachmentURLs

/-- The method `Assign` on its `*Admin` arguments: `assigner.MessageAddress()`
(line 249) and then `assignee.MessageAddress()` (line 250) read them. -/
def ConversationService.AssignPtr (c : ConversationService σ P C L E) (id : String)
    (assigner assignee : Option Admin) : σ → Option (C × Option E) × σ :=
  fun s =>
    match assigner with
    | none => panicked s
    | some a =>
      match assignee with
      | none => panicked s
      | some b => returned (c.Assign id a b s)

/-- The method `Open` on its `*Admin` argument, which it passes on to `reply`. -/
def ConversationService.OpenPtr (c : ConversationService σ P C L E) (id : String)
    (opener : Option Admin) : σ → Option (C × Option E) × σ :=
  c.replyPtr id opener CONVERSATION_OPEN "" none

/-- The method `Close` on its `*Admin` argument, which it passes on to `reply`. -/
def ConversationService.ClosePtr (c : ConversationService σ P C L E) (id : String)
    (closer : Option Admin) : σ → Option (C × Option E) × σ :=
  c.replyPtr id closer CONVERSATION_CLOSE "" none

end ServiceOnPointers

/-- The call `op` does not panic and returns exactly what the repository call
`call` returns, from every state of the repository: the same value, the same
error and the state after that call. So `op` fails with an error exactly when
the call fails with that error, and returns a nil error when the call does. -/
def DelegatesPresent {σ R E : Type} (op : σ → Option (R × Option E) × σ)
    (call : σ → (R × Option E) × σ) : Prop :=
  ∀ s, op s = (some (call s).1, (call s).2) ∧
    (∀ e, (op s).1 = some ((call s).1.1, some e) ↔ (call s).1.2 = some e) ∧
    ((call s).1.2 = none → (op s).1 = some ((call s).1.1, none))

/-! ## Theorems -/

/-- An operation hands `Repository.reply` one conversation id and one payload. -/
theorem HandsToReply_unique
    {run : (σ P C L E : Type) → ConversationService σ P C L E → σ → (C × Option E) × σ}
    {id id' : String} {p q : Reply} (hp : HandsToReply run id p) (hq : HandsToReply run id' q) :
    id = id' ∧ p = q := by
  have h := (hp _ Unit _ _ _ (recordingService Unit)).symm.trans (hq _ Unit _ _ _ (recordingService Unit))
  have h2 := congrFun h []
  simp [recordingService, recordingRepository] at h2
  exact h2

/-- An operation hands `Repository.list` one parameter object. -/
theorem HandsToList_unique {P : Type}
    {run : (σ C L E : Type) → ConversationService σ P C L E → σ → (L × Option E) × σ}
    {p q : ConversationListParams P} (hp : HandsToList run p) (hq : HandsToList run q) :
    p = q := by
  have h := (hp _ _ _ _ (recordingService P)).symm.trans (hq _ _ _ _ (recordingService P))
  have h2 := congrFun h []
  simp [recordingService, recordingRepository] at h2
  exact h2

/-- The admin branch of `reply`. -/
theorem reply_of_admin {α : Type} [MessagePerson α] (id : String) (author : α)
    (replyType : ReplyType) (body : String) (attachmentURLs : Option (List String))
    (hadmin : (MessagePerson.MessageAddress author).Type_ = "admin") :
    HandsToReply (fun _ _ _ _ _ c => c.reply id author replyType body attachmentURLs) id
      { Type_ := "admin", ReplyType := replyType.String, Body := body,
        AttachmentURLs := attachmentURLs, AdminID := (MessagePerson.MessageAddress author).ID } := by
  intro σ P C L E c
  simp [ConversationService.reply, hadmin]

/-- The other branch of `reply`. -/
theorem reply_of_other {α : Type} [MessagePerson α] (id : String) (author : α)
    (replyType : ReplyType) (body : String) (attachmentURLs : Option (List String))
    (hother : (MessagePerson.MessageAddress author).Type_ ≠ "admin") :
    HandsToReply (fun _ _ _ _ _ c => c.reply id author replyType body attachmentURLs) id
      { Type_ := (MessagePerson.MessageAddress author).Type_, ReplyType := replyType.String,
        Body := body, AttachmentURLs := attachmentURLs,
        IntercomID := (MessagePerson.MessageAddress author).ID,
        UserID := (MessagePerson.MessageAddress author).UserID,
        Email := (MessagePerson.MessageAddress author).Email } := by
  intro σ P C L E c
  simp [ConversationService.reply, hother]

/-- The payload of `Assign`. -/
theorem Assign_hands (id : String) (assigner assignee : Admin) :
    HandsToReply (fun _ _ _ _ _ c => c.Assign id assigner assignee) id
      { Type_ := "admin", ReplyType := CONVERSATION_ASSIGN.String,
        AdminID := assigner.MessageAddress.ID, AssigneeID := assignee.MessageAddress.ID } := by
  intro σ P C L E c
  rfl

/-- C1: for an author whose address has Type "admin", `reply`, `Reply` and
`ReplyWithAttachmentURLs` hand `Repository.reply` the conversation id and the
payload with Type "admin", ReplyType the string of the reply type, the given
body and attachment list (nil for `Reply`), AdminID the address ID, and
IntercomID, UserID, Email and AssigneeID empty. -/
theorem reply_admin_payload {α : Type} [MessagePerson α] (id : String) (author : α)
    (replyType : ReplyType) (body : String) (attachmentURLs : Option (List String))
    (hadmin : (MessagePerson.MessageAddress author).Type_ = "admin") :
    HandsToReply (fun _ _ _ _ _ c => c.reply id author replyType body attachmentURLs) id
        { Type_ := "admin", ReplyType := replyType.String, Body := body,
          AttachmentURLs := attachmentURLs, AdminID := (MessagePerson.MessageAddress author).ID,
          IntercomID := "", UserID := "", Email := "", AssigneeID := "" } ∧
      HandsToReply (fun _ _ _ _ _ c => c.Reply id author replyType body) id
        { Type_ := "admin", ReplyType := replyType.String, Body := body,
          AttachmentURLs := none, AdminID := (MessagePerson.MessageAddress author).ID,
          IntercomID := "", UserID := "", Email := "", AssigneeID := "" } ∧
      HandsToReply
        (fun _ _ _ _ _ c => c.ReplyWithAttachmentURLs id author replyType body attachmentURLs) id
        { Type_ := "admin", ReplyType := replyType.String, Body := body,
          AttachmentURLs := attachmentURLs, AdminID := (MessagePerson.MessageAddress author).ID,
          IntercomID := "", UserID := "", Email := "", AssigneeID := "" } := by
  refine ⟨?_, ?_, ?_⟩ <;> intro σ P C L E c <;>
    simp [ConversationService.Reply, ConversationService.ReplyWithAttachmentURLs,
      ConversationService.reply, hadmin]

/-- C1, the scenario: `reply("42", adminX, COMMENT, "hello", nil)` on the
recording repository leaves the one call `reply("42", ...)` with the payload
of Type "admin", ReplyType "comment", Body "hello" and AdminID the id of
`adminX`. -/
theorem reply_admin_payload_witness :
    (MessagePerson.MessageAddress adminX).Type_ = "admin" ∧
      HandsToReply (fun _ _ _ _ _ c => c.reply "42" adminX CONVERSATION_COMMENT "hello" none) "42"
        { Type_ := "admin", ReplyType := "comment", Body := "hello", AdminID := "7" } ∧
      (recordingService Unit).reply "42" adminX CONVERSATION_COMMENT "hello" none [] =
        (((), none), [Request.reply "42"
          { Type_ := "admin", ReplyType := "comment", Body := "hello", AdminID := "7" }]) :=
  ⟨rfl, (reply_admin_payload "42" adminX CONVERSATION_COMMENT "hello" none rfl).1, rfl⟩

/-- C2: for an author whose address has a Type other than "admin", `reply`
hands `Repository.reply` the conversation id and the payload with Type the
address Type, ReplyType the string of the reply type, the given body and
attachment list, IntercomID, UserID and Email those of the address, and
AdminID and AssigneeID empty. -/
theorem reply_user_payload {α : Type} [MessagePerson α] (id : String) (author : α)
    (replyType : ReplyType) (body : String) (attachmentURLs : Option (List String))
    (hother : (MessagePerson.MessageAddress author).Type_ ≠ "admin") :
    HandsToReply (fun _ _ _ _ _ c => c.reply id author replyType body attachmentURLs) id
      { Type_ := (MessagePerson.MessageAddress author).Type_, ReplyType := replyType.String,
        Body := body, AttachmentURLs := attachmentURLs,
        IntercomID := (MessagePerson.MessageAddress author).ID,
        UserID := (MessagePerson.MessageAddress author).UserID,
        Email := (MessagePerson.MessageAddress author).Email,
        AdminID := "", AssigneeID := "" } := by
  intro σ P C L E c
  simp [ConversationService.reply, hother]

/-- C2, at a contact and at a user: the recording repository receives the
one call with the identity of the contact, respectively of the user, and no
AdminID. -/
theorem reply_user_payload_witness :
    (MessagePerson.MessageAddress contactX).Type_ ≠ "admin" ∧
      HandsToReply
        (fun _ _ _ _ _ c => c.reply "42" contactX CONVERSATION_NOTE "hi" (some ["http://a/b.png"]))
        "42"
        { Type_ := "contact", ReplyType := "note", Body := "hi",
          AttachmentURLs := some ["http://a/b.png"], IntercomID := "c1", UserID := "",
          Email := "c@example.com", AdminID := "", AssigneeID := "" } ∧
      (recordingService Unit).reply "42" userX CONVERSATION_COMMENT "hello" none [] =
        (((), none), [Request.reply "42"
          { Type_ := "user", ReplyType := "comment", Body := "hello", IntercomID := "u1",
            UserID := "ext-1", Email := "u@example.com" }]) :=
  ⟨by decide,
    reply_user_payload "42" contactX CONVERSATION_NOTE "hi" (some ["http://a/b.png"]) (by decide),
    by
      have h := reply_user_payload "42" userX CONVERSATION_COMMENT "hello" none (by decide)
      exact (congrFun (h _ Unit _ _ _ (recordingService Unit)) []).trans rfl⟩

/-- C3: `reply` and `Assign` each hand `Repository.reply` a payload, and in
every payload they hand the admin identity and the user identity are never
populated together: when AdminID is not empty, IntercomID, UserID and Email
are empty. For `reply` the address Type alone decides the branch: with Type
"admin" the payload carries AdminID and no user identity, with any other Type
it carries the user identity of the address and no AdminID. `Assign` never
sets the user identity. -/
theorem reply_assign_identity_exclusive {α : Type} [MessagePerson α] (id : String) (author : α)
    (replyType : ReplyType) (body : String) (attachmentURLs : Option (List String))
    (assigner assignee : Admin) :
    ((∃ p, HandsToReply (fun _ _ _ _ _ c => c.reply id author replyType body attachmentURLs) id p) ∧
      ∀ p, HandsToReply (fun _ _ _ _ _ c => c.reply id author replyType body attachmentURLs) id p →
        (p.AdminID ≠ "" → p.IntercomID = "" ∧ p.UserID = "" ∧ p.Email = "") ∧
        ((MessagePerson.MessageAddress author).Type_ = "admin" →
          p.AdminID = (MessagePerson.MessageAddress author).ID ∧
            p.IntercomID = "" ∧ p.UserID = "" ∧ p.Email = "") ∧
        ((MessagePerson.MessageAddress author).Type_ ≠ "admin" →
          p.AdminID = "" ∧ p.IntercomID = (MessagePerson.MessageAddress author).ID ∧
            p.UserID = (MessagePerson.MessageAddress author).UserID ∧
            p.Email = (MessagePerson.MessageAddress author).Email)) ∧
    ((∃ q, HandsToReply (fun _ _ _ _ _ c => c.Assign id assigner assignee) id q) ∧
      ∀ q, HandsToReply (fun _ _ _ _ _ c => c.Assign id assigner assignee) id q →
        (q.AdminID ≠ "" → q.IntercomID = "" ∧ q.UserID = "" ∧ q.Email = "") ∧
        q.IntercomID = "" ∧ q.UserID = "" ∧ q.Email = "") := by
  have hAssign := Assign_hands id assigner assignee
  refine ⟨?_, ⟨⟨_, hAssign⟩, ?_⟩⟩
  · by_cases hadmin : (MessagePerson.MessageAddress author).Type_ = "admin"
    · have hp := reply_of_admin id author replyType body attachmentURLs hadmin
      refine ⟨⟨_, hp⟩, ?_⟩
      intro p h
      obtain ⟨-, rfl⟩ := HandsToReply_unique hp h
      simp [hadmin]
    · have hp := reply_of_other id author replyType body attachmentURLs hadmin
      refine ⟨⟨_, hp⟩, ?_⟩
      intro p h
      obtain ⟨-, rfl⟩ := HandsToReply_unique hp h
      simp [hadmin]
  · intro q h
    obtain ⟨-, rfl⟩ := HandsToReply_unique hAssign h
    simp

/-- C3, at an admin author with a body and attachments and at an assignment
between two admins: the payload handed by `reply` has AdminID "7" and an empty
user identity. -/
theorem reply_assign_identity_exclusive_witness :
    ∃ p, HandsToReply
        (fun _ _ _ _ _ c => c.reply "42" adminX CONVERSATION_COMMENT "hello" (some ["http://a/b.png"]))
        "42" p ∧
      p.AdminID = "7" ∧ p.AdminID ≠ "" ∧ p.IntercomID = "" ∧ p.UserID = "" ∧ p.Email = "" := by
  have h := reply_assign_identity_exclusive "42" adminX CONVERSATION_COMMENT "hello"
    (some ["http://a/b.png"]) adminX adminY
  obtain ⟨p, hp⟩ := h.1.1
  have hinv := h.1.2 p hp
  have hid : p.AdminID = "7" := (hinv.2.1 rfl).1
  have hne : p.AdminID ≠ "" := by rw [hid]; decide
  exact ⟨p, hp, hid, hne, hinv.1 hne⟩

/-- C4 as stated fails: for the contact with every field empty, `reply` hands
`Repository.reply` a payload in which neither AdminID nor any of IntercomID,
UserID and Email is populated, and this is the only payload it hands. -/
theorem reply_exactly_one_identity_counterexample :
    HandsToReply (fun _ _ _ _ _ c => c.reply "42" emptyContact CONVERSATION_COMMENT "hello" none)
        "42" { Type_ := "contact", ReplyType := CONVERSATION_COMMENT.String, Body := "hello" } ∧
      (∀ p, HandsToReply
          (fun _ _ _ _ _ c => c.reply "42" emptyContact CONVERSATION_COMMENT "hello" none) "42" p →
        ¬ ((p.adminPopulated ∧ ¬ p.userPopulated) ∨ (¬ p.adminPopulated ∧ p.userPopulated))) ∧
      (recordingService Unit).reply "42" emptyContact CONVERSATION_COMMENT "hello" none [] =
        (((), none), [Request.reply "42"
          { Type_ := "contact", ReplyType := "comment", Body := "hello", AssigneeID := "",
            AdminID := "", IntercomID := "", Email := "", UserID := "",
            AttachmentURLs := none }]) := by
  have hp := reply_of_other "42" emptyContact CONVERSATION_COMMENT "hello" none (by decide)
  refine ⟨hp, ?_, rfl⟩
  intro p h
  obtain ⟨-, rfl⟩ := HandsToReply_unique hp h
  simp [Reply.adminPopulated, Reply.userPopulated]
  decide

/-- C4, amended: `reply` hands `Repository.reply` a payload, and in every
payload it hands at most one of the two identity groups is populated, the
address Type deciding which one can be: with Type "admin" the user identity is
empty and AdminID is populated exactly when the address ID is not empty; with
any other Type AdminID is empty and the user identity is populated exactly
when one of the address ID, UserID and Email is not empty. -/
theorem reply_at_most_one_identity {α : Type} [MessagePerson α] (id : String) (author : α)
    (replyType : ReplyType) (body : String) (attachmentURLs : Option (List String)) :
    (∃ p, HandsToReply (fun _ _ _ _ _ c => c.reply id author replyType body attachmentURLs) id p) ∧
      ∀ p, HandsToReply (fun _ _ _ _ _ c => c.reply id author replyType body attachmentURLs) id p →
        ¬ (p.adminPopulated ∧ p.userPopulated) ∧
        ((MessagePerson.MessageAddress author).Type_ = "admin" →
          ¬ p.userPopulated ∧
            (p.adminPopulated ↔ (MessagePerson.MessageAddress author).ID ≠ "")) ∧
        ((MessagePerson.MessageAddress author).Type_ ≠ "admin" →
          ¬ p.adminPopulated ∧
            (p.userPopulated ↔
              ((MessagePerson.MessageAddress author).ID ≠ "" ∨
                (MessagePerson.MessageAddress author).UserID ≠ "" ∨
                (MessagePerson.MessageAddress author).Email ≠ ""))) := by
  by_cases hadmin : (MessagePerson.MessageAddress author).Type_ = "admin"
  · have hp := reply_of_admin id author replyType body attachmentURLs hadmin
    refine ⟨⟨_, hp⟩, ?_⟩
    intro p h
    obtain ⟨-, rfl⟩ := HandsToReply_unique hp h
    simp [hadmin, Reply.adminPopulated, Reply.userPopulated]
  · have hp := reply_of_other id author replyType body attachmentURLs hadmin
    refine ⟨⟨_, hp⟩, ?_⟩
    intro p h
    obtain ⟨-, rfl⟩ := HandsToReply_unique hp h
    simp [hadmin, Reply.adminPopulated, Reply.userPopulated]

/-- C4, amended, at a contact with an id and an email: the payload handed
populates the user identity and not the admin identity. -/
theorem reply_at_most_one_identity_witness :
    ∃ p, HandsToReply (fun _ _ _ _ _ c => c.reply "42" contactX CONVERSATION_COMMENT "hello" none)
        "42" p ∧
      (MessagePerson.MessageAddress contactX).Type_ ≠ "admin" ∧
      ¬ p.adminPopulated ∧ p.userPopulated := by
  have h := reply_at_most_one_identity "42" contactX CONVERSATION_COMMENT "hello" none
  obtain ⟨p, hp⟩ := h.1
  have hinv := (h.2 p hp).2.2 (by decide)
  exact ⟨p, hp, by decide, hinv.1, hinv.2.2 (Or.inl (by decide))⟩

/-- C5: `Assign` hands `Repository.reply` the conversation id and the payload
with Type "admin", ReplyType the string of `CONVERSATION_ASSIGN`, AdminID the
ID of the address of the assigner, AssigneeID the ID of the address of the
assignee, an empty Body, no attachment URLs, and IntercomID, UserID and Email
empty. -/
theorem Assign_payload (id : String) (assigner assignee : Admin) :
    HandsToReply (fun _ _ _ _ _ c => c.Assign id assigner assignee) id
      { Type_ := "admin", ReplyType := CONVERSATION_ASSIGN.String,
        AdminID := (MessagePerson.MessageAddress assigner).ID,
        AssigneeID := (MessagePerson.MessageAddress assignee).ID,
        Body := "", AttachmentURLs := none, IntercomID := "", UserID := "", Email := "" } := by
  intro σ P C L E c
  rfl

/-- The parameters of `ListByAdmin`, by the value of `state`. -/
theorem ListByAdmin_hands {P : Type} (admin : Admin) (state : ConversationListState)
    (pageParams : P) :
    HandsToList (fun _ _ _ _ c => c.ListByAdmin admin state pageParams)
      { PageParams := pageParams, Type_ := "admin", AdminID := admin.ID.String,
        Open := if state = SHOW_OPEN then some true
          else if state = SHOW_CLOSED then some false else none } := by
  intro σ C L E c
  by_cases h1 : state = SHOW_OPEN
  · subst h1
    simp [ConversationService.ListByAdmin, boolPtr, SHOW_OPEN, SHOW_CLOSED]
  · by_cases h2 : state = SHOW_CLOSED
    · subst h2
      simp [ConversationService.ListByAdmin, boolPtr, SHOW_OPEN, SHOW_CLOSED]
    · simp [ConversationService.ListByAdmin, h1, h2]

/-- The parameters of `ListByUser`, by the value of `state`. -/
theorem ListByUser_hands {P : Type} (user : User) (state : ConversationListState)
    (pageParams : P) :
    HandsToList (fun _ _ _ _ c => c.ListByUser user state pageParams)
      { PageParams := pageParams, Type_ := "user", IntercomUserID := user.ID,
        UserID := user.UserID, Email := user.Email,
        Unread := if state = SHOW_UNREAD then some true else none } := by
  intro σ C L E c
  by_cases h1 : state = SHOW_UNREAD
  · simp [ConversationService.ListByUser, boolPtr, h1]
  · simp [ConversationService.ListByUser, h1]

/-- The parameters of `ListAll`. -/
theorem ListAll_hands {P : Type} (pageParams : P) :
    HandsToList (fun _ _ _ _ c => c.ListAll pageParams) { PageParams := pageParams } := by
  intro σ C L E c
  rfl

/-- C6: `ListByAdmin` hands `Repository.list` the parameters with the given
page parameters, Type "admin", AdminID the string of the admin ID, the user
filters and DisplayAs empty and Unread absent; Open is present and true for
`SHOW_OPEN`, present and false for `SHOW_CLOSED`, and absent for every other
state, `SHOW_ALL` and `SHOW_UNREAD` included. -/
theorem ListByAdmin_params {P : Type} (admin : Admin) (state : ConversationListState)
    (pageParams : P) :
    HandsToList (fun _ _ _ _ c => c.ListByAdmin admin state pageParams)
        { PageParams := pageParams, Type_ := "admin", AdminID := admin.ID.String,
          IntercomUserID := "", UserID := "", Email := "", DisplayAs := "", Unread := none,
          Open := if state = SHOW_OPEN then some true
            else if state = SHOW_CLOSED then some false else none } ∧
      HandsToList (fun _ _ _ _ c => c.ListByAdmin admin SHOW_OPEN pageParams)
        { PageParams := pageParams, Type_ := "admin", AdminID := admin.ID.String,
          IntercomUserID := "", UserID := "", Email := "", DisplayAs := "", Unread := none,
          Open := some true } ∧
      HandsToList (fun _ _ _ _ c => c.ListByAdmin admin SHOW_CLOSED pageParams)
        { PageParams := pageParams, Type_ := "admin", AdminID := admin.ID.String,
          IntercomUserID := "", UserID := "", Email := "", DisplayAs := "", Unread := none,
          Open := some false } ∧
      HandsToList (fun _ _ _ _ c => c.ListByAdmin admin SHOW_ALL pageParams)
        { PageParams := pageParams, Type_ := "admin", AdminID := admin.ID.String,
          IntercomUserID := "", UserID := "", Email := "", DisplayAs := "", Unread := none,
          Open := none } ∧
      HandsToList (fun _ _ _ _ c => c.ListByAdmin admin SHOW_UNREAD pageParams)
        { PageParams := pageParams, Type_ := "admin", AdminID := admin.ID.String,
          IntercomUserID := "", UserID := "", Email := "", DisplayAs := "", Unread := none,
          Open := none } :=
  ⟨ListByAdmin_hands admin state pageParams, ListByAdmin_hands admin SHOW_OPEN pageParams,
    ListByAdmin_hands admin SHOW_CLOSED pageParams, ListByAdmin_hands admin SHOW_ALL pageParams,
    ListByAdmin_hands admin SHOW_UNREAD pageParams⟩

/-- C7: `ListByUser` hands `Repository.list` the parameters with the given
page parameters, Type "user", IntercomUserID, UserID and Email those of the
user, AdminID and DisplayAs empty and Open absent; Unread is present and true
exactly when the state is `SHOW_UNREAD` and absent for every other state, so
`SHOW_ALL`, `SHOW_OPEN` and `SHOW_CLOSED` give the same parameters. -/
theorem ListByUser_params {P : Type} (user : User) (state : ConversationListState)
    (pageParams : P) :
    HandsToList (fun _ _ _ _ c => c.ListByUser user state pageParams)
        { PageParams := pageParams, Type_ := "user", IntercomUserID := user.ID,
          UserID := user.UserID, Email := user.Email, AdminID := "", DisplayAs := "",
          Open := none, Unread := if state = SHOW_UNREAD then some true else none } ∧
      HandsToList (fun _ _ _ _ c => c.ListByUser user SHOW_UNREAD pageParams)
        { PageParams := pageParams, Type_ := "user", IntercomUserID := user.ID,
          UserID := user.UserID, Email := user.Email, AdminID := "", DisplayAs := "",
          Open := none, Unread := some true } ∧
      HandsToList (fun _ _ _ _ c => c.ListByUser user SHOW_ALL pageParams)
        { PageParams := pageParams, Type_ := "user", IntercomUserID := user.ID,
          UserID := user.UserID, Email := user.Email, AdminID := "", DisplayAs := "",
          Open := none, Unread := none } ∧
      HandsToList (fun _ _ _ _ c => c.ListByUser user SHOW_OPEN pageParams)
        { PageParams := pageParams, Type_ := "user", IntercomUserID := user.ID,
          UserID := user.UserID, Email := user.Email, AdminID := "", DisplayAs := "",
          Open := none, Unread := none } ∧
      HandsToList (fun _ _ _ _ c => c.ListByUser user SHOW_CLOSED pageParams)
        { PageParams := pageParams, Type_ := "user", IntercomUserID := user.ID,
          UserID := user.UserID, Email := user.Email, AdminID := "", DisplayAs := "",
          Open := none, Unread := none } :=
  ⟨ListByUser_hands user state pageParams, ListByUser_hands user SHOW_UNREAD pageParams,
    ListByUser_hands user SHOW_ALL pageParams, ListByUser_hands user SHOW_OPEN pageParams,
    ListByUser_hands user SHOW_CLOSED pageParams⟩

/-- C8: `ListAll`, `ListByAdmin` and `ListByUser` each hand `Repository.list`
a parameter object, and in every parameter object they hand, whatever the
actor, the state and the page parameters, Open and Unread are not both
present. `ListAll` hands the page parameters alone: Open and Unread absent
and every other filter empty. -/
theorem list_params_open_unread_exclusive {P : Type} (admin : Admin) (user : User)
    (state : ConversationListState) (pageParams : P) :
    ((∃ q, HandsToList (fun _ _ _ _ c => c.ListAll pageParams) q) ∧
      ∀ q, HandsToList (fun _ _ _ _ c => c.ListAll pageParams) q →
        ¬ (q.Open.isSome ∧ q.Unread.isSome) ∧ q.Open = none ∧ q.Unread = none ∧
          q.PageParams = pageParams ∧ q.Type_ = "" ∧ q.AdminID = "" ∧ q.IntercomUserID = "" ∧
          q.UserID = "" ∧ q.Email = "" ∧ q.DisplayAs = "") ∧
    ((∃ q, HandsToList (fun _ _ _ _ c => c.ListByAdmin admin state pageParams) q) ∧
      ∀ q, HandsToList (fun _ _ _ _ c => c.ListByAdmin admin state pageParams) q →
        ¬ (q.Open.isSome ∧ q.Unread.isSome) ∧ q.Unread = none) ∧
    ((∃ q, HandsToList (fun _ _ _ _ c => c.ListByUser user state pageParams) q) ∧
      ∀ q, HandsToList (fun _ _ _ _ c => c.ListByUser user state pageParams) q →
        ¬ (q.Open.isSome ∧ q.Unread.isSome) ∧ q.Open = none) := by
  refine ⟨⟨⟨_, ListAll_hands pageParams⟩, ?_⟩,
    ⟨⟨_, ListByAdmin_hands admin state pageParams⟩, ?_⟩,
    ⟨⟨_, ListByUser_hands user state pageParams⟩, ?_⟩⟩
  · intro q h
    obtain rfl := HandsToList_unique (ListAll_hands pageParams) h
    simp
  · intro q h
    obtain rfl := HandsToList_unique (ListByAdmin_hands admin state pageParams) h
    simp
  · intro q h
    obtain rfl := HandsToList_unique (ListByUser_hands user state pageParams) h
    simp

/-- C8, at `ListByUser` with `SHOW_UNREAD` and at `ListByAdmin` with
`SHOW_OPEN`: the parameters handed have Unread present and Open absent,
respectively Open present and Unread absent. -/
theorem list_params_open_unread_exclusive_witness :
    (∃ q, HandsToList (fun _ _ _ _ c => c.ListByUser userX SHOW_UNREAD ()) q ∧
      q.Unread = some true ∧ q.Open = none) ∧
    (∃ q, HandsToList (fun _ _ _ _ c => c.ListByAdmin adminX SHOW_OPEN ()) q ∧
      q.Open = some true ∧ q.Unread = none) := by
  have h := list_params_open_unread_exclusive adminX userX SHOW_UNREAD ()
  have h2 := list_params_open_unread_exclusive adminX userX SHOW_OPEN ()
  refine ⟨⟨_, ListByUser_hands userX SHOW_UNREAD (), rfl,
      (h.2.2.2 _ (ListByUser_hands userX SHOW_UNREAD ())).2⟩,
    ⟨_, ListByAdmin_hands adminX SHOW_OPEN (), rfl,
      (h2.2.1.2 _ (ListByAdmin_hands adminX SHOW_OPEN ())).2⟩⟩

/-- C9: for every contact, `MessageAddress` is the address with Type
"contact", ID and Email those of the contact and UserID empty; the interface
method is this method, and the address does not depend on ExternalID. -/
theorem Contact_MessageAddress_spec {S M : Type} (c : Contact S M) :
    c.MessageAddress = { Type_ := "contact", ID := c.ID, Email := c.Email, UserID := "" } ∧
      MessagePerson.MessageAddress c = c.MessageAddress ∧
      ∀ e : String, ({ c with ExternalID := e } : Contact S M).MessageAddress = c.MessageAddress :=
  ⟨rfl, rfl, fun _ => rfl⟩

/-- C10: `Open` and `Close` are `reply` with `CONVERSATION_OPEN` and
`CONVERSATION_CLOSE`, an empty body and no attachments: they hand
`Repository.reply` the payloads that `reply` builds for those arguments; both
payloads have an empty Body and no attachment URLs, and they are equal in
every field except ReplyType. For `Open` the payload has Type "admin",
ReplyType "open" and AdminID the id of the admin. -/
theorem Open_Close_payload (id : String) (a : Admin) :
    (∀ (σ P C L E : Type) (c : ConversationService σ P C L E),
      c.Open id a = c.reply id a CONVERSATION_OPEN "" none ∧
        c.Close id a = c.reply id a CONVERSATION_CLOSE "" none) ∧
    ∃ pO pC : Reply,
      HandsToReply (fun _ _ _ _ _ c => c.Open id a) id pO ∧
      HandsToReply (fun _ _ _ _ _ c => c.reply id a CONVERSATION_OPEN "" none) id pO ∧
      HandsToReply (fun _ _ _ _ _ c => c.Close id a) id pC ∧
      HandsToReply (fun _ _ _ _ _ c => c.reply id a CONVERSATION_CLOSE "" none) id pC ∧
      pO.Body = "" ∧ pO.AttachmentURLs = none ∧ pC.Body = "" ∧ pC.AttachmentURLs = none ∧
      pO.ReplyType = CONVERSATION_OPEN.String ∧ pC.ReplyType = CONVERSATION_CLOSE.String ∧
      { pO with ReplyType := pC.ReplyType } = pC ∧
      pO = { Type_ := "admin", ReplyType := "open", Body := "", AdminID := a.ID.String } := by
  refine ⟨fun _ _ _ _ _ _ => ⟨rfl, rfl⟩, ?_⟩
  have hO := reply_of_admin id a CONVERSATION_OPEN "" none rfl
  have hC := reply_of_admin id a CONVERSATION_CLOSE "" none rfl
  exact ⟨_, _, hO, hO, hC, hC, rfl, rfl, rfl, rfl, rfl, rfl, rfl, rfl⟩

/-- C10, the scenario: `open("42", adminX)` on the recording repository
leaves the one call `reply("42", ...)` with the payload of Type "admin",
ReplyType "open", an empty Body and AdminID the id of `adminX`, and
`close("42", adminX)` the same payload with ReplyType "close". -/
theorem Open_Close_payload_witness :
    (recordingService Unit).Open "42" adminX [] =
        (recordingService Unit).reply "42" adminX CONVERSATION_OPEN "" none [] ∧
      (recordingService Unit).Open "42" adminX [] =
        (((), none), [Request.reply "42"
          { Type_ := "admin", ReplyType := "open", Body := "", AdminID := "7" }]) ∧
      (recordingService Unit).Close "42" adminX [] =
        (((), none), [Request.reply "42"
          { Type_ := "admin", ReplyType := "close", Body := "", AdminID := "7" }]) :=
  ⟨congrFun ((Open_Close_payload "42" adminX).1 _ Unit _ _ _ (recordingService Unit)).1 [],
    rfl, rfl⟩

/-- An operation that is a repository call delegates to it. -/
theorem Delegates_of_eq {σ R E : Type} {op call : σ → (R × Option E) × σ} (h : op = call) :
    Delegates op call := by
  subst h
  intro s
  simp

/-- The unexported `reply` hands `Repository.reply` a payload, whoever the author is. -/
theorem reply_hands {α : Type} [MessagePerson α] (id : String) (author : α)
    (replyType : ReplyType) (body : String) (attachmentURLs : Option (List String)) :
    ∃ p, HandsToReply (fun _ _ _ _ _ c => c.reply id author replyType body attachmentURLs) id p := by
  by_cases hadmin : (MessagePerson.MessageAddress author).Type_ = "admin"
  · exact ⟨_, reply_of_admin id author replyType body attachmentURLs hadmin⟩
  · exact ⟨_, reply_of_other id author replyType body attachmentURLs hadmin⟩

/-- On present actors every operation of `ConversationService` is one
repository call: it delegates to `find`, `read`, `list` or `reply`, and on a
repository given by arbitrary answering functions it returns the answer to
that call and leaves the log longer by that call. -/
theorem present_operations_delegate {α P : Type} [MessagePerson α] (id : String)
    (author : α) (admin assigner assignee opener closer : Admin) (user : User)
    (state : ConversationListState) (pageParams : P) (replyType : ReplyType) (body : String)
    (attachmentURLs : Option (List String)) :
    ((∀ (σ P C L E : Type) (c : ConversationService σ P C L E),
        Delegates (c.Find id) (c.Repository.find id)) ∧
      ∀ (C L E : Type) (conv : Request P → List (Request P) → C × Option E)
        (convs : Request P → List (Request P) → L × Option E) (log : List (Request P)),
        (answeringService conv convs).Find id log =
          (conv (Request.find id) log, log ++ [Request.find id])) ∧
    ((∀ (σ P C L E : Type) (c : ConversationService σ P C L E),
        Delegates (c.MarkRead id) (c.Repository.read id)) ∧
      ∀ (C L E : Type) (conv : Request P → List (Request P) → C × Option E)
        (convs : Request P → List (Request P) → L × Option E) (log : List (Request P)),
        (answeringService conv convs).MarkRead id log =
          (conv (Request.read id) log, log ++ [Request.read id])) ∧
    (∃ q : ConversationListParams P,
      (∀ (σ C L E : Type) (c : ConversationService σ P C L E),
        Delegates (c.ListAll pageParams) (c.Repository.list q)) ∧
      ∀ (C L E : Type) (conv : Request P → List (Request P) → C × Option E)
        (convs : Request P → List (Request P) → L × Option E) (log : List (Request P)),
        (answeringService conv convs).ListAll pageParams log =
          (convs (Request.list q) log, log ++ [Request.list q])) ∧
    (∃ q : ConversationListParams P,
      (∀ (σ C L E : Type) (c : ConversationService σ P C L E),
        Delegates (c.ListByAdmin admin state pageParams) (c.Repository.list q)) ∧
      ∀ (C L E : Type) (conv : Request P → List (Request P) → C × Option E)
        (convs : Request P → List (Request P) → L × Option E) (log : List (Request P)),
        (answeringService conv convs).ListByAdmin admin state pageParams log =
          (convs (Request.list q) log, log ++ [Request.list q])) ∧
    (∃ q : ConversationListParams P,
      (∀ (σ C L E : Type) (c : ConversationService σ P C L E),
        Delegates (c.ListByUser user state pageParams) (c.Repository.list q)) ∧
      ∀ (C L E : Type) (conv : Request P → List (Request P) → C × Option E)
        (convs : Request P → List (Request P) → L × Option E) (log : List (Request P)),
        (answeringService conv convs).ListByUser user state pageParams log =
          (convs (Request.list q) log, log ++ [Request.list q])) ∧
    (∃ p : Reply,
      (∀ (σ P C L E : Type) (c : ConversationService σ P C L E),
        Delegates (c.Reply id author replyType body) (c.Repository.reply id p)) ∧
      ∀ (C L E : Type) (conv : Request P → List (Request P) → C × Option E)
        (convs : Request P → List (Request P) → L × Option E) (log : List (Request P)),
        (answeringService conv convs).Reply id author replyType body log =
          (conv (Request.reply id p) log, log ++ [Request.reply id p])) ∧
    (∃ p : Reply,
      (∀ (σ P C L E : Type) (c : ConversationService σ P C L E),
        Delegates (c.ReplyWithAttachmentURLs id author replyType body attachmentURLs) (c.Repository.reply id p)) ∧
      ∀ (C L E : Type) (conv : Request P → List (Request P) → C × Option E)
        (convs : Request P → List (Request P) → L × Option E) (log : List (Request P)),
        (answeringService conv convs).ReplyWithAttachmentURLs id author replyType body attachmentURLs log =
          (conv (Request.reply id p) log, log ++ [Request.reply id p])) ∧
    (∃ p : Reply,
      (∀ (σ P C L E : Type) (c : ConversationService σ P C L E),
        Delegates (c.Assign id assigner assignee) (c.Repository.reply id p)) ∧
      ∀ (C L E : Type) (conv : Request P → List (Request P) → C × Option E)
        (convs : Request P → List (Request P) → L × Option E) (log : List (Request P)),
        (answeringService conv convs).Assign id assigner assignee log =
          (conv (Request.reply id p) log, log ++ [Request.reply id p])) ∧
    (∃ p : Reply,
      (∀ (σ P C L E : Type) (c : ConversationService σ P C L E),
        Delegates (c.Open id opener) (c.Repository.reply id p)) ∧
      ∀ (C L E : Type) (conv : Request P → List (Request P) → C × Option E)
        (convs : Request P → List (Request P) → L × Option E) (log : List (Request P)),
        (answeringService conv convs).Open id opener log =
          (conv (Request.reply id p) log, log ++ [Request.reply id p])) ∧
    (∃ p : Reply,
      (∀ (σ P C L E : Type) (c : ConversationService σ P C L E),
        Delegates (c.Close id closer) (c.Repository.reply id p)) ∧
      ∀ (C L E : Type) (conv : Request P → List (Request P) → C × Option E)
        (convs : Request P → List (Request P) → L × Option E) (log : List (Request P)),
        (answeringService conv convs).Close id closer log =
          (conv (Request.reply id p) log, log ++ [Request.reply id p])) := by
  obtain ⟨p1, h1⟩ := reply_hands id author replyType body none
  obtain ⟨p2, h2⟩ := reply_hands id author replyType body attachmentURLs
  obtain ⟨p4, h4⟩ := reply_hands id opener CONVERSATION_OPEN "" none
  obtain ⟨p5, h5⟩ := reply_hands id closer CONVERSATION_CLOSE "" none
  have h3 := Assign_hands id assigner assignee
  have hA := ListAll_hands pageParams
  have hB := ListByAdmin_hands admin state pageParams
  have hC := ListByUser_hands user state pageParams
  refine ⟨⟨fun _ _ _ _ _ _ => Delegates_of_eq rfl, fun _ _ _ _ _ _ => rfl⟩,
    ⟨fun _ _ _ _ _ _ => Delegates_of_eq rfl, fun _ _ _ _ _ _ => rfl⟩,
    ⟨_, fun σ C L E c => Delegates_of_eq (hA σ C L E c),
      fun C L E conv convs log => congrFun (hA _ C L E (answeringService conv convs)) log⟩,
    ⟨_, fun σ C L E c => Delegates_of_eq (hB σ C L E c),
      fun C L E conv convs log => congrFun (hB _ C L E (answeringService conv convs)) log⟩,
    ⟨_, fun σ C L E c => Delegates_of_eq (hC σ C L E c),
      fun C L E conv convs log => congrFun (hC _ C L E (answeringService conv convs)) log⟩,
    ⟨p1, fun σ P C L E c => Delegates_of_eq (h1 σ P C L E c),
      fun C L E conv convs log => congrFun (h1 _ P C L E (answeringService conv convs)) log⟩,
    ⟨p2, fun σ P C L E c => Delegates_of_eq (h2 σ P C L E c),
      fun C L E conv convs log => congrFun (h2 _ P C L E (answeringService conv convs)) log⟩,
    ⟨_, fun σ P C L E c => Delegates_of_eq (h3 σ P C L E c),
      fun C L E conv convs log => congrFun (h3 _ P C L E (answeringService conv convs)) log⟩,
    ⟨p4, fun σ P C L E c => Delegates_of_eq (h4 σ P C L E c),
      fun C L E conv convs log => congrFun (h4 _ P C L E (answeringService conv convs)) log⟩,
    ⟨p5, fun σ P C L E c => Delegates_of_eq (h5 σ P C L E c),
      fun C L E conv convs log => congrFun (h5 _ P C L E (answeringService conv convs)) log⟩⟩

/-- A call that returns what a delegating body returned delegates too. -/
theorem DelegatesPresent_returned {σ R E : Type} {op call : σ → (R × Option E) × σ}
    (h : Delegates op call) : DelegatesPresent (fun s => returned (op s)) call := by
  intro s
  have hs := (h s).1
  simp only [returned, hs]
  rcases call s with ⟨⟨v, e⟩, t⟩
  simp

/-- C11 as stated fails: with a nil actor, on a remote end that accepts every
call, `ListByAdmin`, `ListByUser`, `Reply`, `ReplyWithAttachmentURLs`,
`Assign`, `Open` and `Close` panic and the repository has received no call.
So no call of `list`, respectively `reply`, is one that the operation makes
and whose result it returns. -/
theorem nil_actor_counterexample :
    ((answeringService accepting accepting).ListByAdminPtr none SHOW_ALL () [] = (none, []) ∧
      (answeringService accepting accepting).ListByUserPtr none SHOW_ALL () [] = (none, []) ∧
      (answeringService accepting accepting).ReplyPtr "42" (none : Option Admin)
        CONVERSATION_COMMENT "hello" [] = (none, []) ∧
      (answeringService accepting accepting).ReplyWithAttachmentURLsPtr "42" (none : Option Admin)
        CONVERSATION_COMMENT "hello" (some ["http://a/b.png"]) [] = (none, []) ∧
      (answeringService accepting accepting).AssignPtr "42" none (some adminY) [] = (none, []) ∧
      (answeringService accepting accepting).AssignPtr "42" (some adminX) none [] = (none, []) ∧
      (answeringService accepting accepting).OpenPtr "42" none [] = (none, []) ∧
      (answeringService accepting accepting).ClosePtr "42" none [] = (none, [])) ∧
    (¬ ∃ q : ConversationListParams Unit, ∀ (σ C L E : Type) (c : ConversationService σ Unit C L E),
      DelegatesPresent (c.ListByAdminPtr none SHOW_ALL ()) (c.Repository.list q)) ∧
    (¬ ∃ p : Reply, ∀ (σ P C L E : Type) (c : ConversationService σ P C L E),
      DelegatesPresent (c.OpenPtr "42" none) (c.Repository.reply "42" p)) := by
  refine ⟨⟨rfl, rfl, rfl, rfl, rfl, rfl, rfl, rfl⟩, ?_, ?_⟩
  · rintro ⟨q, h⟩
    have h1 := (h _ Unit Unit String (answeringService accepting accepting) []).1
    have h2 := congrArg Prod.fst h1
    simp [ConversationService.ListByAdminPtr, panicked] at h2
  · rintro ⟨p, h⟩
    have h1 := (h _ Unit Unit Unit String (answeringService accepting accepting) []).1
    have h2 := congrArg Prod.fst h1
    simp [ConversationService.OpenPtr, ConversationService.replyPtr, panicked] at h2

/-- C11, amended: with present actors every operation of `ConversationService`
is one repository call. For any repository, any state of it, any conversation
id (the empty one included) and any present actors (one whose address is
entirely empty included), `Find` and `MarkRead` delegate to `find` and `read`
with the id they were given; `ListAll`, `ListByAdmin` and `ListByUser`
delegate to `list` with one parameter object; `Reply`,
`ReplyWithAttachmentURLs`, `Assign`, `Open` and `Close` delegate to `reply`
with the id they were given and one payload. Each returns exactly what that
call returns, so it fails exactly when the call fails, with the same error,
and does not panic. On a repository given by arbitrary answering functions,
each operation returns the answer to that one call and leaves the log of calls
longer by that one call. With a nil actor the operation panics and the
repository is left as it was, without a call. -/
theorem service_delegates_for_present_actors {α P : Type} [MessagePerson α] (id : String)
    (author : α) (admin assigner assignee opener closer : Admin) (user : User)
    (state : ConversationListState) (pageParams : P) (replyType : ReplyType) (body : String)
    (attachmentURLs : Option (List String)) :
    ((∀ (σ P C L E : Type) (c : ConversationService σ P C L E),
        Delegates (c.Find id) (c.Repository.find id)) ∧
      ∀ (C L E : Type) (conv : Request P → List (Request P) → C × Option E)
        (convs : Request P → List (Request P) → L × Option E) (log : List (Request P)),
        (answeringService conv convs).Find id log =
          (conv (Request.find id) log, log ++ [Request.find id])) ∧
    ((∀ (σ P C L E : Type) (c : ConversationService σ P C L E),
        Delegates (c.MarkRead id) (c.Repository.read id)) ∧
      ∀ (C L E : Type) (conv : Request P → List (Request P) → C × Option E)
        (convs : Request P → List (Request P) → L × Option E) (log : List (Request P)),
        (answeringService conv convs).MarkRead id log =
          (conv (Request.read id) log, log ++ [Request.read id])) ∧
    (∃ q : ConversationListParams P,
      (∀ (σ C L E : Type) (c : ConversationService σ P C L E),
        Delegates (c.ListAll pageParams) (c.Repository.list q)) ∧
      ∀ (C L E : Type) (conv : Request P → List (Request P) → C × Option E)
        (convs : Request P → List (Request P) → L × Option E) (log : List (Request P)),
        (answeringService conv convs).ListAll pageParams log =
          (convs (Request.list q) log, log ++ [Request.list q])) ∧
    (∃ q : ConversationListParams P,
      (∀ (σ C L E : Type) (c : ConversationService σ P C L E),
        DelegatesPresent (c.ListByAdminPtr (some admin) state pageParams) (c.Repository.list q)) ∧
      ∀ (C L E : Type) (conv : Request P → List (Request P) → C × Option E)
        (convs : Request P → List (Request P) → L × Option E) (log : List (Request P)),
        (answeringService conv convs).ListByAdminPtr (some admin) state pageParams log =
          (some (convs (Request.list q) log), log ++ [Request.list q])) ∧
    (∃ q : ConversationListParams P,
      (∀ (σ C L E : Type) (c : ConversationService σ P C L E),
        DelegatesPresent (c.ListByUserPtr (some user) state pageParams) (c.Repository.list q)) ∧
      ∀ (C L E : Type) (conv : Request P → List (Request P) → C × Option E)
        (convs : Request P → List (Request P) → L × Option E) (log : List (Request P)),
        (answeringService conv convs).ListByUserPtr (some user) state pageParams log =
          (some (convs (Request.list q) log), log ++ [Request.list q])) ∧
    (∃ p : Reply,
      (∀ (σ P C L E : Type) (c : ConversationService σ P C L E),
        DelegatesPresent (c.ReplyPtr id (some author) replyType body) (c.Repository.reply id p)) ∧
      ∀ (C L E : Type) (conv : Request P → List (Request P) → C × Option E)
        (convs : Request P → List (Request P) → L × Option E) (log : List (Request P)),
        (answeringService conv convs).ReplyPtr id (some author) replyType body log =
          (some (conv (Request.reply id p) log), log ++ [Request.reply id p])) ∧
    (∃ p : Reply,
      (∀ (σ P C L E : Type) (c : ConversationService σ P C L E),
        DelegatesPresent (c.ReplyWithAttachmentURLsPtr id (some author) replyType body attachmentURLs) (c.Repository.reply id p)) ∧
      ∀ (C L E : Type) (conv : Request P → List (Request P) → C × Option E)
        (convs : Request P → List (Request P) → L × Option E) (log : List (Request P)),
        (answeringService conv convs).ReplyWithAttachmentURLsPtr id (some author) replyType body attachmentURLs log =
          (some (conv (Request.reply id p) log), log ++ [Request.reply id p])) ∧
    (∃ p : Reply,
      (∀ (σ P C L E : Type) (c : ConversationService σ P C L E),
        DelegatesPresent (c.AssignPtr id (some assigner) (some assignee)) (c.Repository.reply id p)) ∧
      ∀ (C L E : Type) (conv : Request P → List (Request P) → C × Option E)
        (convs : Request P → List (Request P) → L × Option E) (log : List (Request P)),
        (answeringService conv convs).AssignPtr id (some assigner) (some assignee) log =
          (some (conv (Request.reply id p) log), log ++ [Request.reply id p])) ∧
    (∃ p : Reply,
      (∀ (σ P C L E : Type) (c : ConversationService σ P C L E),
        DelegatesPresent (c.OpenPtr id (some opener)) (c.Repository.reply id p)) ∧
      ∀ (C L E : Type) (conv : Request P → List (Request P) → C × Option E)
        (convs : Request P → List (Request P) → L × Option E) (log : List (Request P)),
        (answeringService conv convs).OpenPtr id (some opener) log =
          (some (conv (Request.reply id p) log), log ++ [Request.reply id p])) ∧
    (∃ p : Reply,
      (∀ (σ P C L E : Type) (c : ConversationService σ P C L E),
        DelegatesPresent (c.ClosePtr id (some closer)) (c.Repository.reply id p)) ∧
      ∀ (C L E : Type) (conv : Request P → List (Request P) → C × Option E)
        (convs : Request P → List (Request P) → L × Option E) (log : List (Request P)),
        (answeringService conv convs).ClosePtr id (some closer) log =
          (some (conv (Request.reply id p) log), log ++ [Request.reply id p])) ∧
    (∀ (σ C L E : Type) (c : ConversationService σ P C L E) (s : σ),
      c.ListByAdminPtr none state pageParams s = (none, s) ∧
        c.ListByUserPtr none state pageParams s = (none, s)) ∧
    (∀ (σ P C L E : Type) (c : ConversationService σ P C L E) (s : σ),
      c.ReplyPtr id (none : Option α) replyType body s = (none, s) ∧
        c.ReplyWithAttachmentURLsPtr id (none : Option α) replyType body attachmentURLs s =
          (none, s) ∧
        c.AssignPtr id none (some assignee) s = (none, s) ∧
        c.AssignPtr id (some assigner) none s = (none, s) ∧
        c.AssignPtr id none none s = (none, s) ∧
        c.OpenPtr id none s = (none, s) ∧
        c.ClosePtr id none s = (none, s)) := by
  obtain ⟨hFind, hRead, hAll, ⟨qA, hA, hA2⟩, ⟨qU, hU, hU2⟩, ⟨p1, h1, h1b⟩, ⟨p2, h2, h2b⟩,
    ⟨p3, h3, h3b⟩, ⟨p4, h4, h4b⟩, ⟨p5, h5, h5b⟩⟩ :=
    present_operations_delegate id author admin assigner assignee opener closer user state
      pageParams replyType body attachmentURLs
  refine ⟨hFind, hRead, hAll,
    ⟨qA, fun σ C L E c => DelegatesPresent_returned (hA σ C L E c),
      fun C L E conv convs log => congrArg returned (hA2 C L E conv convs log)⟩,
    ⟨qU, fun σ C L E c => DelegatesPresent_returned (hU σ C L E c),
      fun C L E conv convs log => congrArg returned (hU2 C L E conv convs log)⟩,
    ⟨p1, fun σ P C L E c => DelegatesPresent_returned (h1 σ P C L E c),
      fun C L E conv convs log => congrArg returned (h1b C L E conv convs log)⟩,
    ⟨p2, fun σ P C L E c => DelegatesPresent_returned (h2 σ P C L E c),
      fun C L E conv convs log => congrArg returned (h2b C L E conv convs log)⟩,
    ⟨p3, fun σ P C L E c => DelegatesPresent_returned (h3 σ P C L E c),
      fun C L E conv convs log => congrArg returned (h3b C L E conv convs log)⟩,
    ⟨p4, fun σ P C L E c => DelegatesPresent_returned (h4 σ P C L E c),
      fun C L E conv convs log => congrArg returned (h4b C L E conv convs log)⟩,
    ⟨p5, fun σ P C L E c => DelegatesPresent_returned (h5 σ P C L E c),
      fun C L E conv convs log => congrArg returned (h5b C L E conv convs log)⟩,
    fun _ _ _ _ _ _ => ⟨rfl, rfl⟩,
    fun _ _ _ _ _ _ _ => ⟨rfl, rfl, rfl, rfl, rfl, rfl, rfl⟩⟩

/-- C11, amended, with the empty id and a present actor whose address is
entirely empty: on a remote end that rejects every call the operations
return its error after one call, and on a remote end that accepts every call
they return a nil error after one call. -/
theorem service_delegates_for_present_actors_witness :
    (answeringService rejecting rejecting).Find "" [] =
        (((), some "rejected"), [Request.find ""]) ∧
      (answeringService accepting accepting).MarkRead "" [Request.find ""] =
        (((), none), [Request.find "", Request.read ""]) ∧
      (∃ p, (answeringService rejecting rejecting).ReplyPtr "" (some anonymous)
          CONVERSATION_COMMENT "" [] =
        (some ((), some "rejected"), [Request.reply "" p])) ∧
      (answeringService rejecting rejecting).ReplyPtr "" (some anonymous)
          CONVERSATION_COMMENT "" [] =
        (some ((), some "rejected"), [Request.reply "" { ReplyType := "comment" }]) ∧
      (answeringService accepting accepting).ReplyPtr "" (some anonymous)
          CONVERSATION_COMMENT "" [] =
        (some ((), none), [Request.reply "" { ReplyType := "comment" }]) ∧
      (answeringService rejecting rejecting).ListByAdminPtr (some adminX) SHOW_UNREAD () [] =
        (some ((), some "rejected"),
          [Request.list { PageParams := (), Type_ := "admin", AdminID := "7" }]) ∧
      (answeringService rejecting rejecting).OpenPtr "" none [Request.find ""] =
        (none, [Request.find ""]) := by
  have h := service_delegates_for_present_actors "" anonymous adminX adminX adminY adminX adminX
    userX SHOW_UNREAD () CONVERSATION_COMMENT "" none
  obtain ⟨p, -, hp⟩ := h.2.2.2.2.2.1
  exact ⟨h.1.2 Unit Unit String rejecting rejecting [],
    h.2.1.2 Unit Unit String accepting accepting [Request.find ""],
    ⟨p, hp Unit Unit String rejecting rejecting []⟩, rfl, rfl, rfl,
    (h.2.2.2.2.2.2.2.2.2.2.2 _ Unit Unit Unit String (answeringService rejecting rejecting)
      [Request.find ""]).2.2.2.2.2.1⟩

end Intercom
